import Mathlib

/-
Shallow embedding of the macro-risk-dashboard scripts:
  scripts/collect_upbit_volume.py, scripts/backfill_upbit_history.py,
  scripts/monitor.py.
Python dicts keyed by ISO date strings are modelled as association lists
with first-match lookup; JSON numbers are modelled as rationals; Python
`None` is `Option.none`; a caught exception around an HTTP call is an
`Except.error` input.
-/

namespace MacroRisk

/-- First-match lookup in the association-list model of a Python dict
keyed by ISO date string. -/
def dictLookup (k : String) : List (String × ℚ) → Option ℚ
  | [] => none
  | p :: rest => if p.1 = k then some p.2 else dictLookup k rest

/-- Python `int()` applied to a (real-valued) number: truncation toward
zero, modelled on the rationals. -/
def pyInt (q : ℚ) : ℤ := q.num.tdiv q.den

/-- Python dict assignment `h[k] = v`: replace the value if the key is
present, otherwise append the new key at the end (insertion order). -/
def dictSet (h : List (String × ℚ)) (k : String) (v : ℚ) : List (String × ℚ) :=
  if (dictLookup k h).isSome then
    h.map (fun p => if p.1 = k then (k, v) else p)
  else h ++ [(k, v)]

/-- backfill_upbit_history.py, collect_historical_data lines 141-144:
`for date, volume in daily_volumes.items(): if date not in existing_data:
existing_data[date] = int(volume)`. The first argument is the loaded
existing history, the second the items of the freshly collected
`daily_volumes`. -/
def mergeBackfill : List (String × ℚ) → List (String × ℚ) → List (String × ℚ)
  | existing, [] => existing
  | existing, p :: rest =>
      mergeBackfill
        (if (dictLookup p.1 existing).isSome then existing
         else existing ++ [(p.1, ((pyInt p.2 : ℤ) : ℚ))]) rest

/-- One element of the Upbit `/v1/ticker` response; only the field the
script reads, via `ticker.get('acc_trade_price_24h', 0)`. -/
structure Ticker where
  acc_trade_price_24h : Option ℚ

/-- collect_upbit_volume.py, get_upbit_total_volume lines 67-74: sum the
24h trade prices over all tickers and return `int(total_volume)`. -/
def get_upbit_total_volume (tickers : List Ticker) : ℤ :=
  pyInt ((tickers.map (fun t => t.acc_trade_price_24h.getD 0)).sum)

/-- collect_upbit_volume.py, main lines 126-162, as a function of the
fetch outcome (None on failure), the loaded history, today's KST date and
whether save_history succeeds. Returns the process exit code (sys.exit(1)
on fetch or save failure, 0 otherwise) and the mapping handed to
save_history (`history[today] = total_volume` on the loaded history); the
mapping is `none` when main exits before building it. -/
def collect_main (fetched : Option ℤ) (history : List (String × ℚ)) (today : String)
    (saveOk : Bool) : Nat × Option (List (String × ℚ)) :=
  match fetched with
  | none => (1, none)
  | some v =>
    let merged := dictSet history today ((v : ℤ) : ℚ)
    if saveOk then (0, some merged) else (1, some merged)

/-- One element of the Upbit `/v1/candles/days` response; the two fields
the backfill script reads. -/
structure Candle where
  candle_date_time_kst : String
  candle_acc_trade_price : Option ℚ

/-- backfill_upbit_history.py line 122: `candle['candle_date_time_kst'][:10]`. -/
def candleDate (c : Candle) : String := c.candle_date_time_kst.take 10

/-- backfill_upbit_history.py line 123: `candle.get('candle_acc_trade_price', 0)`. -/
def candlePrice (c : Candle) : ℚ := c.candle_acc_trade_price.getD 0

/-- backfill_upbit_history.py, get_daily_candles lines 65-71: the candle
request for one market, with the surrounding try/except that logs a
failure and returns the empty list. `fetch` is the environment: the HTTP
response per market, or the exception it raised. -/
def get_daily_candles (fetch : String → Except String (List Candle)) (market : String) :
    List Candle :=
  match fetch market with
  | .ok cs => cs
  | .error _ => []

/-- backfill_upbit_history.py lines 121-124: accumulate one market's
candles into the per-date volume totals (`daily_volumes[date_kst] +=
trade_price` on a `defaultdict(int)`, modelled as a total function that
is 0 on absent dates). -/
def accumulateCandles (vols : String → ℚ) (cs : List Candle) : String → ℚ :=
  cs.foldl (fun v c => fun d => if d = candleDate c then v d + candlePrice c else v d) vols

/-- backfill_upbit_history.py, collect_historical_data lines 117-127: the
per-market loop of one batch, starting from the given totals; each
market's candles come from get_daily_candles. -/
def collectDailyVolumes (fetch : String → Except String (List Candle))
    (markets : List String) (vols : String → ℚ) : String → ℚ :=
  markets.foldl (fun v m => accumulateCandles v (get_daily_candles fetch m)) vols

/-- The total trade price a single market contributes to one date: the sum
of the prices of its (successfully fetched) candles falling on that date. -/
def marketContribution (fetch : String → Except String (List Candle))
    (market : String) (d : String) : ℚ :=
  ((get_daily_candles fetch market).map
    (fun c => if candleDate c = d then candlePrice c else 0)).sum

/-- One point of a FRED indicator series from the dashboard API; `value`
may be JSON null. -/
structure IndicatorPoint where
  value : Option ℚ

/-- The FRED payload of monitor.py: the four indicator series the script
indexes with `fred_data[key][-1]['value']`. -/
structure FredData where
  t10y2y : List IndicatorPoint
  unrate : List IndicatorPoint
  hyOas : List IndicatorPoint
  ismPmi : List IndicatorPoint

/-- `series[-1]['value']` when it does not raise: the value of the last
point, `none` when the series is empty or the value is null. -/
def latestValue (l : List IndicatorPoint) : Option ℚ :=
  l.getLast?.bind IndicatorPoint.value

/-- monitor.py lines 96-99. -/
def score_t10y2y (v : ℚ) : ℚ :=
  if v ≥ 0 then 0 else if v ≤ -1.0 then 1.0 else |v| / 1.0

/-- monitor.py lines 101-104. -/
def score_hyoas (v : ℚ) : ℚ :=
  if v ≤ 4.0 then 0 else if v ≥ 8.0 then 1.0 else (v - 4.0) / 4.0

/-- monitor.py lines 106-109. -/
def score_ismpmi (v : ℚ) : ℚ :=
  if v ≥ 50 then 0 else if v ≤ 43 then 1.0 else (50 - v) / 7.0

/-- monitor.py lines 111-114. -/
def score_unrate (v : ℚ) : ℚ :=
  if v ≤ 4.0 then 0 else if v ≥ 7.0 then 1.0 else (v - 4.0) / 3.0

/-- monitor.py lines 116-132: the weighted composite of the four scores,
clamped by `max(0, min(1, score))`. -/
def compositeScore (t h i u : ℚ) : ℚ :=
  max 0 (min 1 (score_t10y2y t * 0.35 + score_hyoas h * 0.30 +
                score_ismpmi i * 0.20 + score_unrate u * 0.15))

/-- monitor.py, calculate_risk_score lines 83-135: take the latest value
of each series (an IndexError on an empty series is caught and yields
None), return None if any is null, else the clamped composite. -/
def calculate_risk_score (fred : FredData) : Option ℚ :=
  match fred.t10y2y.getLast?, fred.unrate.getLast?, fred.hyOas.getLast?, fred.ismPmi.getLast? with
  | some p1, some p2, some p3, some p4 =>
    match p1.value, p2.value, p3.value, p4.value with
    | some t, some u, some h, some i => some (compositeScore t h i u)
    | _, _, _, _ => none
  | _, _, _, _ => none

/-- monitor.py, get_regime_from_score lines 36-45. -/
def get_regime_from_score (score : ℚ) : String :=
  if score < 0.30 then "riskOn"
  else if score < 0.55 then "neutral"
  else if score < 0.75 then "riskOff"
  else "crisis"

/-- The `indicators` record of the persisted monitoring state. A `none`
field models an absent key (so `prev_indicators.get(key, default)` takes
its default); states written by the script itself only ever hold numbers. -/
structure Indicators where
  t10y2y : Option ℚ
  hyOas : Option ℚ
  ismPmi : Option ℚ
  unrate : Option ℚ

/-- The record with no indicator keys: `prev_state.get('indicators', {})`
when the key is missing. -/
def emptyIndicators : Indicators := ⟨none, none, none, none⟩

/-- The previously persisted state of monitor.py as the script reads it:
`prev_state.get('score')` and `prev_state.get('indicators', {})`. An
empty state file is `⟨none, none⟩`. -/
structure PrevState where
  score : Option ℚ
  indicators : Option Indicators

/-- The four Tier-2 alert messages of monitor.py, identified by the
indicator whose threshold crossing produced them (the formatted message
text carries no further decision content). -/
inductive Tier2Alert
  | t10y2yInversion
  | hyOasRisk
  | ismPmiContraction
  | unrateRise
deriving DecidableEq

/-- monitor.py, check_tier2_alerts lines 213-266: build the four current
latest values (an IndexError on any empty series is caught and returns
the empty alert list), read the previous `indicators` record with
per-key defaults, and append one alert per satisfied crossing predicate
in source order. -/
def check_tier2_alerts (fred : FredData) (prev_state : PrevState) : List Tier2Alert :=
  match fred.t10y2y.getLast?, fred.hyOas.getLast?, fred.ismPmi.getLast?, fred.unrate.getLast? with
  | some pa, some pb, some pc, some pd =>
    let prev := prev_state.indicators.getD emptyIndicators
    (match pa.value with
     | some a => if a ≤ 0 ∧ prev.t10y2y.getD 1 > 0 then [Tier2Alert.t10y2yInversion] else []
     | none => []) ++
    (match pb.value with
     | some b => if b ≥ 6.0 ∧ prev.hyOas.getD 0 < 6.0 then [Tier2Alert.hyOasRisk] else []
     | none => []) ++
    (match pc.value with
     | some c => if c < 50 ∧ prev.ismPmi.getD 100 ≥ 50 then [Tier2Alert.ismPmiContraction] else []
     | none => []) ++
    (match pd.value with
     | some d => if d ≥ 4.5 ∧ prev.unrate.getD 0 < 4.5 then [Tier2Alert.unrateRise] else []
     | none => [])
  | _, _, _, _ => []

/-- monitor.py, check_tier1_alerts lines 159-210: None when there is no
previous score, otherwise a regime-change message (abstracted to the pair
of previous and current regime labels it is built from) exactly when the
regimes differ. -/
def check_tier1_alerts (current_score : ℚ) (prev_score : Option ℚ) : Option (String × String) :=
  match prev_score with
  | none => none
  | some p =>
    if get_regime_from_score current_score ≠ get_regime_from_score p then
      some (get_regime_from_score p, get_regime_from_score current_score)
    else none

/-- The payload assembled by fetch_dashboard_data (the Fear & Greed part
plays no role in the claims modelled here and is omitted from the record
the state is built from). -/
structure DashboardData where
  fred : FredData
  timestamp : String

/-- The state record monitor.py's main builds at lines 372-382 and hands
to save_state. -/
structure MonitorState where
  score : ℚ
  regime : String
  indicators : Indicators
  timestamp : String

/-- monitor.py, main lines 350-408, as a function of the previous state
and the fetch outcome. Returns the process exit code and the state record
written by save_state (which truncates and overwrites the state file), or
`none` when main returns before saving. Both failure paths (`if not
data:` and `if risk_score is None:`) print and `return`, so the process
ends normally with exit code 0 on every path. -/
def monitor_main (prev_state : PrevState) (data : Option DashboardData) :
    Nat × Option MonitorState :=
  match data with
  | none => (0, none)
  | some d =>
    match calculate_risk_score d.fred with
    | none => (0, none)
    | some rs =>
      (0, some { score := rs
                 regime := get_regime_from_score rs
                 indicators := ⟨latestValue d.fred.t10y2y, latestValue d.fred.hyOas,
                                latestValue d.fred.ismPmi, latestValue d.fred.unrate⟩
                 timestamp := d.timestamp })

theorem dictLookup_append_some {l1 : List (String × ℚ)} (l2 : List (String × ℚ))
    {k : String} {v : ℚ} (hv : dictLookup k l1 = some v) :
    dictLookup k (l1 ++ l2) = some v := by
  induction l1 with
  | nil => simp [dictLookup] at hv
  | cons p rest ih =>
    by_cases hp : p.1 = k
    · simpa [dictLookup, hp] using hv
    · rw [dictLookup, if_neg hp] at hv
      simpa [dictLookup, hp] using ih hv

theorem dictLookup_append_none {l1 : List (String × ℚ)} (l2 : List (String × ℚ))
    {k : String} (hv : dictLookup k l1 = none) :
    dictLookup k (l1 ++ l2) = dictLookup k l2 := by
  induction l1 with
  | nil => simp [dictLookup]
  | cons p rest ih =>
    by_cases hp : p.1 = k
    · simp [dictLookup, hp] at hv
    · rw [dictLookup, if_neg hp] at hv
      simpa [dictLookup, hp] using ih hv

theorem dictSet_lookup_self (h : List (String × ℚ)) (k : String) (v : ℚ) :
    dictLookup k (dictSet h k v) = some v := by
  rw [dictSet]
  split_ifs with hk
  · induction h with
    | nil => simp [dictLookup] at hk
    | cons p rest ih =>
      by_cases hp : p.1 = k
      · simp [dictLookup, hp]
      · rw [dictLookup, if_neg hp] at hk
        simpa [dictLookup, hp] using ih hk
  · rw [Option.not_isSome_iff_eq_none] at hk
    rw [dictLookup_append_none _ hk]
    simp [dictLookup]

theorem dictLookup_map_replace (k k2 : String) (v : ℚ) (hne : k2 ≠ k)
    (h : List (String × ℚ)) :
    dictLookup k2 (h.map (fun p => if p.1 = k then (k, v) else p)) = dictLookup k2 h := by
  induction h with
  | nil => rfl
  | cons p rest ih =>
    by_cases hp : p.1 = k
    · have h1 : ¬ (k = k2) := hne.symm
      have h2 : ¬ (p.1 = k2) := by rw [hp]; exact h1
      simp only [List.map_cons, if_pos hp, dictLookup, h1, if_false, h2]
      simpa using ih
    · by_cases hq : p.1 = k2
      · simp only [List.map_cons, if_neg hp, dictLookup, if_pos hq]
      · simp only [List.map_cons, if_neg hp, dictLookup, if_neg hq]
        exact ih

theorem dictSet_lookup_other (h : List (String × ℚ)) (k k2 : String) (v : ℚ)
    (hne : k2 ≠ k) : dictLookup k2 (dictSet h k v) = dictLookup k2 h := by
  rw [dictSet]
  split_ifs with hk
  · exact dictLookup_map_replace k k2 v hne h
  · cases hlk : dictLookup k2 h with
    | some w => simp [dictLookup_append_some _ hlk, hlk]
    | none => simp [dictLookup_append_none _ hlk, hlk, dictLookup, hne.symm]

theorem mergeBackfill_preserved (newData : List (String × ℚ)) :
    ∀ existing k v, dictLookup k existing = some v →
      dictLookup k (mergeBackfill existing newData) = some v := by
  induction newData with
  | nil => intro existing k v hv; simpa [mergeBackfill] using hv
  | cons p rest ih =>
    intro existing k v hv
    rw [mergeBackfill]
    split_ifs with hp
    · exact ih existing k v hv
    · exact ih _ k v (dictLookup_append_some _ hv)

theorem mergeBackfill_new_entries (newData : List (String × ℚ)) :
    ∀ existing k v, dictLookup k existing = none →
      dictLookup k (mergeBackfill existing newData) = some v →
      ∃ w, (k, w) ∈ newData ∧ v = ((pyInt w : ℤ) : ℚ) := by
  induction newData with
  | nil =>
    intro existing k v hnone hv
    rw [mergeBackfill, hnone] at hv
    exact absurd hv (by simp)
  | cons p rest ih =>
    intro existing k v hnone hv
    rw [mergeBackfill] at hv
    split_ifs at hv with hp
    · obtain ⟨w, hw, he⟩ := ih existing k v hnone hv
      exact ⟨w, List.mem_cons_of_mem _ hw, he⟩
    · by_cases hk : p.1 = k
      · have hl : dictLookup k (existing ++ [(p.1, ((pyInt p.2 : ℤ) : ℚ))]) =
            some ((pyInt p.2 : ℤ) : ℚ) := by
          rw [dictLookup_append_none _ hnone]
          simp [dictLookup, hk]
        have := mergeBackfill_preserved rest _ k _ hl
        rw [this] at hv
        exact ⟨p.2, by rw [← hk]; exact List.mem_cons_self _ _, (Option.some.inj hv).symm⟩
      · have hl : dictLookup k (existing ++ [(p.1, ((pyInt p.2 : ℤ) : ℚ))]) = none := by
          rw [dictLookup_append_none _ hnone]
          simp [dictLookup, hk]
        obtain ⟨w, hw, he⟩ := ih _ k v hl hv
        exact ⟨w, List.mem_cons_of_mem _ hw, he⟩

theorem clamp_mono {a b : ℚ} (hab : a ≤ b) : max 0 (min 1 a) ≤ max 0 (min 1 b) :=
  max_le_max le_rfl (min_le_min le_rfl hab)

theorem clamp_nonneg (a : ℚ) : 0 ≤ max 0 (min 1 a) := le_max_left 0 _

theorem clamp_le_one (a : ℚ) : max 0 (min 1 a) ≤ 1 :=
  max_le zero_le_one (min_le_left 1 a)

theorem score_t10y2y_eq (v : ℚ) : score_t10y2y v = max 0 (min 1 (-v)) := by
  rw [score_t10y2y]
  split_ifs with h1 h2
  · rw [min_eq_right (by linarith), max_eq_left (by linarith)]
  · rw [min_eq_left (by linarith), max_eq_right (by norm_num)]; norm_num
  · rw [abs_of_neg (by linarith : v < 0), min_eq_right (by linarith),
        max_eq_right (by linarith)]
    norm_num

theorem score_hyoas_eq (v : ℚ) : score_hyoas v = max 0 (min 1 ((v - 4) / 4)) := by
  rw [score_hyoas]
  split_ifs with h1 h2
  · rw [min_eq_right (by linarith), max_eq_left (by linarith)]
  · rw [min_eq_left (by linarith), max_eq_right (by norm_num)]; norm_num
  · rw [min_eq_right (by linarith), max_eq_right (by linarith)]; norm_num

theorem score_ismpmi_eq (v : ℚ) : score_ismpmi v = max 0 (min 1 ((50 - v) / 7)) := by
  rw [score_ismpmi]
  split_ifs with h1 h2
  · rw [min_eq_right (by linarith), max_eq_left (by linarith)]
  · rw [min_eq_left (by linarith), max_eq_right (by norm_num)]; norm_num
  · rw [min_eq_right (by linarith), max_eq_right (by linarith)]; norm_num

theorem score_unrate_eq (v : ℚ) : score_unrate v = max 0 (min 1 ((v - 4) / 3)) := by
  rw [score_unrate]
  split_ifs with h1 h2
  · rw [min_eq_right (by linarith), max_eq_left (by linarith)]
  · rw [min_eq_left (by linarith), max_eq_right (by norm_num)]; norm_num
  · rw [min_eq_right (by linarith), max_eq_right (by linarith)]; norm_num

theorem score_t10y2y_anti {a b : ℚ} (hab : a ≤ b) : score_t10y2y b ≤ score_t10y2y a := by
  rw [score_t10y2y_eq, score_t10y2y_eq]; exact clamp_mono (by linarith)

theorem score_hyoas_mono {a b : ℚ} (hab : a ≤ b) : score_hyoas a ≤ score_hyoas b := by
  rw [score_hyoas_eq, score_hyoas_eq]; exact clamp_mono (by linarith)

theorem score_ismpmi_anti {a b : ℚ} (hab : a ≤ b) : score_ismpmi b ≤ score_ismpmi a := by
  rw [score_ismpmi_eq, score_ismpmi_eq]; exact clamp_mono (by linarith)

theorem score_unrate_mono {a b : ℚ} (hab : a ≤ b) : score_unrate a ≤ score_unrate b := by
  rw [score_unrate_eq, score_unrate_eq]; exact clamp_mono (by linarith)

theorem accumulateCandles_apply (cs : List Candle) :
    ∀ (vols : String → ℚ) (d : String),
      accumulateCandles vols cs d =
        vols d + (cs.map (fun c => if candleDate c = d then candlePrice c else 0)).sum := by
  induction cs with
  | nil => intro vols d; simp [accumulateCandles]
  | cons c rest ih =>
    intro vols d
    have hstep : accumulateCandles vols (c :: rest) =
        accumulateCandles
          (fun x => if x = candleDate c then vols x + candlePrice c else vols x) rest := by
      rw [accumulateCandles, accumulateCandles, List.foldl_cons]
    rw [hstep, ih]
    simp only [List.map_cons, List.sum_cons]
    split_ifs with h1 h2 h3
    · ring
    · exact absurd h1.symm h2
    · exact absurd h3.symm h1
    · ring

theorem collectDailyVolumes_apply (fetch : String → Except String (List Candle))
    (markets : List String) :
    ∀ (vols : String → ℚ) (d : String),
      collectDailyVolumes fetch markets vols d =
        vols d + (markets.map (fun m => marketContribution fetch m d)).sum := by
  induction markets with
  | nil => intro vols d; simp [collectDailyVolumes]
  | cons m rest ih =>
    intro vols d
    have hstep : collectDailyVolumes fetch (m :: rest) vols =
        collectDailyVolumes fetch rest
          (accumulateCandles vols (get_daily_candles fetch m)) := by
      rw [collectDailyVolumes, collectDailyVolumes, List.foldl_cons]
    rw [hstep, ih, accumulateCandles_apply]
    simp only [List.map_cons, List.sum_cons, marketContribution]
    ring

/-- C1 counterexample: collect_upbit_volume.py's main does overwrite an
existing date. With today's date already recorded with volume 5, a run
fetching volume 7 hands save_history a mapping in which that date now
maps to 7, not to its old value 5. -/
theorem collect_overwrites_existing_date :
    dictLookup "2025-10-11"
      (((collect_main (some 7) [("2025-10-11", 5)] "2025-10-11" true).2).getD []) =
      some ((7 : ℤ) : ℚ) ∧ ((7 : ℤ) : ℚ) ≠ (5 : ℚ) := by
  constructor
  · rfl
  · norm_num

/-- C1 (amended): the merge in backfill_upbit_history.py's
collect_historical_data never changes the value recorded for a date that
is already present, and only dates absent from the history gain entries
(with values taken from the new batch); collect_upbit_volume.py's main,
however, assigns today's entry unconditionally: it sets the current KST
date to the newly fetched volume — overwriting any existing value for
that date — and leaves every other date unchanged. -/
theorem volume_merge_semantics :
    (∀ (existing newData : List (String × ℚ)) (d : String) (v : ℚ),
        dictLookup d existing = some v →
        dictLookup d (mergeBackfill existing newData) = some v) ∧
    (∀ (existing newData : List (String × ℚ)) (d : String) (v : ℚ),
        dictLookup d existing = none →
        dictLookup d (mergeBackfill existing newData) = some v →
        ∃ w, (d, w) ∈ newData ∧ v = ((pyInt w : ℤ) : ℚ)) ∧
    (∀ (history : List (String × ℚ)) (today : String) (v : ℤ) (saveOk : Bool)
        (saved : List (String × ℚ)),
        (collect_main (some v) history today saveOk).2 = some saved →
        dictLookup today saved = some ((v : ℤ) : ℚ) ∧
        ∀ d, d ≠ today → dictLookup d saved = dictLookup d history) := by
  refine ⟨fun e nd d v hv => mergeBackfill_preserved nd e d v hv,
          fun e nd d v h0 hv => mergeBackfill_new_entries nd e d v h0 hv,
          fun history today v saveOk saved hsave => ?_⟩
  have hs : saved = dictSet history today ((v : ℤ) : ℚ) := by
    cases saveOk <;> simpa [collect_main] using hsave.symm
  subst hs
  exact ⟨dictSet_lookup_self history today _,
         fun d hd => dictSet_lookup_other history today d _ hd⟩

/-- Witness for the amended C1 at concrete inputs: a backfill merge keeps
an existing date's value, and a collect run on an empty history writes
today's fetched volume and leaves other dates untouched. -/
theorem volume_merge_semantics_witness :
    dictLookup "2025-01-01" (mergeBackfill [("2025-01-01", 3)] [("2025-01-01", 9)]) =
      some 3 ∧
    dictLookup "2025-01-01" [("2025-01-01", ((4 : ℤ) : ℚ))] = some ((4 : ℤ) : ℚ) ∧
    dictLookup "2025-01-02" [("2025-01-01", ((4 : ℤ) : ℚ))] = dictLookup "2025-01-02" [] :=
  ⟨volume_merge_semantics.1 _ _ _ _ rfl,
   (volume_merge_semantics.2.2 [] "2025-01-01" 4 true [("2025-01-01", ((4 : ℤ) : ℚ))] rfl).1,
   (volume_merge_semantics.2.2 [] "2025-01-01" 4 true [("2025-01-01", ((4 : ℤ) : ℚ))] rfl).2
     "2025-01-02" (by decide)⟩

/-- C2: when the four latest indicator values exist and are non-None,
calculate_risk_score returns the weighted sum of the four scoring
functions (weights 0.35/0.30/0.20/0.15) clamped to [0,1], and any value
it returns lies in [0,1]. -/
theorem risk_score_weighted_clamped (fred : FredData) (t u h i : ℚ)
    (h1 : fred.t10y2y.getLast? = some ⟨some t⟩)
    (h2 : fred.unrate.getLast? = some ⟨some u⟩)
    (h3 : fred.hyOas.getLast? = some ⟨some h⟩)
    (h4 : fred.ismPmi.getLast? = some ⟨some i⟩) :
    calculate_risk_score fred =
      some (max 0 (min 1 (score_t10y2y t * 0.35 + score_hyoas h * 0.30 +
                          score_ismpmi i * 0.20 + score_unrate u * 0.15))) ∧
    ∀ s, calculate_risk_score fred = some s → 0 ≤ s ∧ s ≤ 1 := by
  have hc : calculate_risk_score fred = some (compositeScore t h i u) := by
    rw [calculate_risk_score, h1, h2, h3, h4]
  refine ⟨by rw [hc, compositeScore], fun s hs => ?_⟩
  rw [hc] at hs
  have hsv : s = compositeScore t h i u := (Option.some.inj hs).symm
  rw [hsv, compositeScore]
  exact ⟨clamp_nonneg _, clamp_le_one _⟩

/-- Witness for C2 at a concrete payload (latest values t10y2y = -2,
unrate = 5, hyOas = 9, ismPmi = 40). -/
theorem risk_score_weighted_clamped_witness :
    calculate_risk_score
        ⟨[⟨some (-2)⟩], [⟨some 5⟩], [⟨some 9⟩], [⟨some 40⟩]⟩ =
      some (max 0 (min 1 (score_t10y2y (-2) * 0.35 + score_hyoas 9 * 0.30 +
                          score_ismpmi 40 * 0.20 + score_unrate 5 * 0.15))) ∧
    ∀ s, calculate_risk_score
        ⟨[⟨some (-2)⟩], [⟨some 5⟩], [⟨some 9⟩], [⟨some 40⟩]⟩ = some s →
      0 ≤ s ∧ s ≤ 1 :=
  risk_score_weighted_clamped _ (-2) 5 9 40 rfl rfl rfl rfl

/-- C3: get_regime_from_score returns 'riskOn' iff score < 0.30,
'neutral' iff 0.30 <= score < 0.55, 'riskOff' iff 0.55 <= score < 0.75,
'crisis' iff score >= 0.75, and equal scores get equal labels. -/
theorem regime_bands (s : ℚ) :
    (get_regime_from_score s = "riskOn" ↔ s < 0.30) ∧
    (get_regime_from_score s = "neutral" ↔ 0.30 ≤ s ∧ s < 0.55) ∧
    (get_regime_from_score s = "riskOff" ↔ 0.55 ≤ s ∧ s < 0.75) ∧
    (get_regime_from_score s = "crisis" ↔ 0.75 ≤ s) ∧
    ∀ s2 : ℚ, s = s2 → get_regime_from_score s = get_regime_from_score s2 := by
  refine ⟨?_, ?_, ?_, ?_, fun s2 hs => by rw [hs]⟩ <;>
    · rw [get_regime_from_score]
      split_ifs with hb1 hb2 hb3 <;>
        simp +decide only [iff_true, iff_false, true_iff, false_iff] <;>
        first
          | linarith
          | (exact ⟨by linarith, by linarith⟩)
          | (rintro ⟨hc1, hc2⟩ <;> linarith)
          | (intro hc; linarith)

/-- Witness for C3 at score 0.5 (neutral band) together with the
equal-scores clause. -/
theorem regime_bands_witness :
    get_regime_from_score (1 / 2) = "neutral" ∧
    get_regime_from_score (1 / 2) = get_regime_from_score (1 / 2) :=
  ⟨((regime_bands (1 / 2)).2.1).mpr ⟨by norm_num, by norm_num⟩,
   (regime_bands (1 / 2)).2.2.2.2 (1 / 2) rfl⟩

/-- C4: the composite risk score is non-increasing in t10y2y and ismPmi
and non-decreasing in hyOas and unrate, each argument separately, over
all rational inputs; and each per-indicator scoring function saturates at
0 and 1 outside its defined range exactly as the code's bounds state. -/
theorem risk_monotone_saturated :
    (∀ t t2 h i u : ℚ, t ≤ t2 → compositeScore t2 h i u ≤ compositeScore t h i u) ∧
    (∀ t h h2 i u : ℚ, h ≤ h2 → compositeScore t h i u ≤ compositeScore t h2 i u) ∧
    (∀ t h i i2 u : ℚ, i ≤ i2 → compositeScore t h i2 u ≤ compositeScore t h i u) ∧
    (∀ t h i u u2 : ℚ, u ≤ u2 → compositeScore t h i u ≤ compositeScore t h i u2) ∧
    (∀ v : ℚ, v ≥ 0 → score_t10y2y v = 0) ∧ (∀ v : ℚ, v ≤ -1 → score_t10y2y v = 1) ∧
    (∀ v : ℚ, v ≤ 4 → score_hyoas v = 0) ∧ (∀ v : ℚ, v ≥ 8 → score_hyoas v = 1) ∧
    (∀ v : ℚ, v ≥ 50 → score_ismpmi v = 0) ∧ (∀ v : ℚ, v ≤ 43 → score_ismpmi v = 1) ∧
    (∀ v : ℚ, v ≤ 4 → score_unrate v = 0) ∧ (∀ v : ℚ, v ≥ 7 → score_unrate v = 1) := by
  refine ⟨?_, ?_, ?_, ?_, ?_, ?_, ?_, ?_, ?_, ?_, ?_, ?_⟩
  · intro t t2 h i u ht
    rw [compositeScore, compositeScore]
    exact clamp_mono (by have := score_t10y2y_anti ht; linarith)
  · intro t h h2 i u hh
    rw [compositeScore, compositeScore]
    exact clamp_mono (by have := score_hyoas_mono hh; linarith)
  · intro t h i i2 u hi
    rw [compositeScore, compositeScore]
    exact clamp_mono (by have := score_ismpmi_anti hi; linarith)
  · intro t h i u u2 hu
    rw [compositeScore, compositeScore]
    exact clamp_mono (by have := score_unrate_mono hu; linarith)
  · intro v hv; rw [score_t10y2y]; split_ifs <;> first | rfl | linarith
  · intro v hv; rw [score_t10y2y]; split_ifs <;> first | rfl | linarith
  · intro v hv; rw [score_hyoas]; split_ifs <;> first | rfl | linarith
  · intro v hv; rw [score_hyoas]; split_ifs <;> first | rfl | linarith
  · intro v hv; rw [score_ismpmi]; split_ifs <;> first | rfl | linarith
  · intro v hv; rw [score_ismpmi]; split_ifs <;> first | rfl | linarith
  · intro v hv; rw [score_unrate]; split_ifs <;> first | rfl | linarith
  · intro v hv; rw [score_unrate]; split_ifs <;> first | rfl | linarith

/-- Witness for C4: monotonicity in t10y2y at -2 ≤ -1 and saturation of
score_hyoas at 9 ≥ 8. -/
theorem risk_monotone_saturated_witness :
    compositeScore (-1) 5 47 5 ≤ compositeScore (-2) 5 47 5 ∧ score_hyoas 9 = 1 :=
  ⟨risk_monotone_saturated.1 (-2) (-1) 5 47 5 (by norm_num),
   risk_monotone_saturated.2.2.2.2.2.2.2.1 9 (by norm_num)⟩

/-- C5 counterexample: a run of monitor.py's main in which the dashboard
fetch fails ends the process with exit code 0, not a nonzero code — the
failure branch prints and returns normally. -/
theorem monitor_failure_exits_zero :
    (monitor_main ⟨none, none⟩ none).1 = 0 := rfl

/-- C5 (amended): collect_upbit_volume.py's main exits with code 1 when
the volume fetch fails or saving fails; monitor.py's main, however, ends
the process normally with exit code 0 after logging the error, both when
fetch_dashboard_data returns None and when calculate_risk_score returns
None. -/
theorem error_exit_codes :
    (∀ (history : List (String × ℚ)) (today : String) (saveOk : Bool),
        (collect_main none history today saveOk).1 = 1) ∧
    (∀ (v : ℤ) (history : List (String × ℚ)) (today : String),
        (collect_main (some v) history today false).1 = 1) ∧
    (∀ prev : PrevState, (monitor_main prev none).1 = 0) ∧
    (∀ (prev : PrevState) (d : DashboardData),
        calculate_risk_score d.fred = none → (monitor_main prev (some d)).1 = 0) := by
  refine ⟨fun history today saveOk => rfl, fun v history today => rfl,
          fun prev => rfl, fun prev d hd => ?_⟩
  rw [monitor_main, hd]

/-- Witness for the amended C5: concrete failing runs of both scripts. -/
theorem error_exit_codes_witness :
    (collect_main none [] "2025-01-01" true).1 = 1 ∧
    (collect_main (some 3) [] "2025-01-01" false).1 = 1 ∧
    (monitor_main ⟨none, none⟩ (some ⟨⟨[], [], [], []⟩, "ts"⟩)).1 = 0 :=
  ⟨error_exit_codes.1 [] "2025-01-01" true,
   error_exit_codes.2.1 3 [] "2025-01-01",
   error_exit_codes.2.2.2 ⟨none, none⟩ ⟨⟨[], [], [], []⟩, "ts"⟩ rfl⟩

/-- C6: check_tier2_alerts is a function of the latest indicator values
and the previous state's indicators record alone, and when the four
latest values are non-None and the previous record holds the four
previous values it emits exactly one alert per crossed threshold:
t10y2y iff current <= 0 < previous, hyOas iff current >= 6 > previous,
ismPmi iff current < 50 <= previous, unrate iff current >= 4.5 > previous. -/
theorem tier2_alerts_spec :
    (∀ (f1 f2 : FredData) (s1 s2 : PrevState),
        f1.t10y2y.getLast? = f2.t10y2y.getLast? →
        f1.hyOas.getLast? = f2.hyOas.getLast? →
        f1.ismPmi.getLast? = f2.ismPmi.getLast? →
        f1.unrate.getLast? = f2.unrate.getLast? →
        s1.indicators = s2.indicators →
        check_tier2_alerts f1 s1 = check_tier2_alerts f2 s2) ∧
    (∀ (fred : FredData) (ps : PrevState) (a b c d pa pb pc pd : ℚ),
        fred.t10y2y.getLast? = some ⟨some a⟩ →
        fred.hyOas.getLast? = some ⟨some b⟩ →
        fred.ismPmi.getLast? = some ⟨some c⟩ →
        fred.unrate.getLast? = some ⟨some d⟩ →
        ps.indicators = some ⟨some pa, some pb, some pc, some pd⟩ →
        ((check_tier2_alerts fred ps).count Tier2Alert.t10y2yInversion =
            if a ≤ 0 ∧ pa > 0 then 1 else 0) ∧
        ((check_tier2_alerts fred ps).count Tier2Alert.hyOasRisk =
            if b ≥ 6.0 ∧ pb < 6.0 then 1 else 0) ∧
        ((check_tier2_alerts fred ps).count Tier2Alert.ismPmiContraction =
            if c < 50 ∧ pc ≥ 50 then 1 else 0) ∧
        ((check_tier2_alerts fred ps).count Tier2Alert.unrateRise =
            if d ≥ 4.5 ∧ pd < 4.5 then 1 else 0)) := by
  constructor
  · intro f1 f2 s1 s2 e1 e2 e3 e4 es
    rw [check_tier2_alerts, check_tier2_alerts, e1, e2, e3, e4, es]
  · intro fred ps a b c d pa pb pc pd h1 h2 h3 h4 hp
    rw [check_tier2_alerts, h1, h2, h3, h4, hp]
    by_cases q1 : a ≤ 0 ∧ pa > 0 <;> by_cases q2 : b ≥ 6.0 ∧ pb < 6.0 <;>
      by_cases q3 : c < 50 ∧ pc ≥ 50 <;> by_cases q4 : d ≥ 4.5 ∧ pd < 4.5 <;>
      simp +decide [q1, q2, q3, q4, Option.getD, List.count_cons, List.count_append]

/-- Witness for C6 at a concrete payload: current t10y2y -1 with previous
1 crosses; the other three indicators do not cross. -/
theorem tier2_alerts_spec_witness :
    ((check_tier2_alerts ⟨[⟨some (-1)⟩], [⟨some 3⟩], [⟨some 2⟩], [⟨some 55⟩]⟩
        ⟨some 0, some ⟨some 1, some 2, some 55, some 3⟩⟩).count
      Tier2Alert.t10y2yInversion = if (-1 : ℚ) ≤ 0 ∧ (1 : ℚ) > 0 then 1 else 0) ∧
    ((check_tier2_alerts ⟨[⟨some (-1)⟩], [⟨some 3⟩], [⟨some 2⟩], [⟨some 55⟩]⟩
        ⟨some 0, some ⟨some 1, some 2, some 55, some 3⟩⟩).count
      Tier2Alert.hyOasRisk = if (2 : ℚ) ≥ 6.0 ∧ (2 : ℚ) < 6.0 then 1 else 0) := by
  have h := (tier2_alerts_spec.2 ⟨[⟨some (-1)⟩], [⟨some 3⟩], [⟨some 2⟩], [⟨some 55⟩]⟩
    ⟨some 0, some ⟨some 1, some 2, some 55, some 3⟩⟩
    (-1) 2 55 3 1 2 55 3 rfl rfl rfl rfl rfl)
  exact ⟨h.1, h.2.1⟩

/-- C7: the state monitor.py's main saves is computed from the current
fetch alone — it is the record of score, regime label, the four latest
indicator values and the fetch timestamp — and is independent of the
previously persisted state. -/
theorem state_overwrite_spec :
    (∀ (p1 p2 : PrevState) (data : Option DashboardData),
        monitor_main p1 data = monitor_main p2 data) ∧
    (∀ (p : PrevState) (d : DashboardData) (st : MonitorState),
        (monitor_main p (some d)).2 = some st →
        ∃ rs, calculate_risk_score d.fred = some rs ∧
          st = ⟨rs, get_regime_from_score rs,
                ⟨latestValue d.fred.t10y2y, latestValue d.fred.hyOas,
                 latestValue d.fred.ismPmi, latestValue d.fred.unrate⟩,
                d.timestamp⟩) := by
  constructor
  · intro p1 p2 data; rfl
  · intro p d st hs
    rw [monitor_main] at hs
    cases hrs : calculate_risk_score d.fred with
    | none => rw [hrs] at hs; exact absurd hs (by simp)
    | some rs =>
      rw [hrs] at hs
      exact ⟨rs, rfl, (Option.some.inj hs).symm⟩

/-- Witness for C7: a concrete successful run whose saved state is
exactly the freshly computed record. -/
theorem state_overwrite_spec_witness :
    (monitor_main ⟨some 99, some ⟨some 9, some 9, some 9, some 9⟩⟩
        (some ⟨⟨[⟨some 1⟩], [⟨some 3⟩], [⟨some 2⟩], [⟨some 55⟩]⟩, "ts"⟩)).2 =
      some ⟨compositeScore 1 2 55 3, get_regime_from_score (compositeScore 1 2 55 3),
            ⟨some 1, some 2, some 55, some 3⟩, "ts"⟩ ∧
    ∃ rs, calculate_risk_score
        (⟨⟨[⟨some 1⟩], [⟨some 3⟩], [⟨some 2⟩], [⟨some 55⟩]⟩, "ts"⟩ : DashboardData).fred =
          some rs ∧
      (⟨compositeScore 1 2 55 3, get_regime_from_score (compositeScore 1 2 55 3),
        ⟨some 1, some 2, some 55, some 3⟩, "ts"⟩ : MonitorState) =
        ⟨rs, get_regime_from_score rs,
         ⟨latestValue [⟨some 1⟩], latestValue [⟨some 2⟩],
          latestValue [⟨some 55⟩], latestValue [⟨some 3⟩]⟩, "ts"⟩ := by
  constructor
  · rfl
  · exact state_overwrite_spec.2 ⟨some 99, some ⟨some 9, some 9, some 9, some 9⟩⟩
      ⟨⟨[⟨some 1⟩], [⟨some 3⟩], [⟨some 2⟩], [⟨some 55⟩]⟩, "ts"⟩ _ rfl

/-- C8: a failing candle request yields the empty list for that market,
the batch still accumulates every market of the list (the totals are the
sum of per-market contributions over the whole list), and a failed
market's contribution to every date is 0. -/
theorem market_failure_isolated :
    (∀ (fetch : String → Except String (List Candle)) (m e : String),
        fetch m = .error e → get_daily_candles fetch m = []) ∧
    (∀ (fetch : String → Except String (List Candle)) (markets : List String) (d : String),
        collectDailyVolumes fetch markets (fun _ => 0) d =
          (markets.map (fun m => marketContribution fetch m d)).sum) ∧
    (∀ (fetch : String → Except String (List Candle)) (m e d : String),
        fetch m = .error e → marketContribution fetch m d = 0) := by
  refine ⟨fun fetch m e hf => ?_, fun fetch markets d => ?_, fun fetch m e d hf => ?_⟩
  · rw [get_daily_candles, hf]
  · rw [collectDailyVolumes_apply]; simp
  · rw [marketContribution, get_daily_candles, hf]; simp

/-- A concrete fetch environment: one market raises, the other returns a
single candle. -/
def fetchEx : String → Except String (List Candle) := fun m =>
  if m = "KRW-BAD" then Except.error "boom"
  else Except.ok [⟨"2025-01-01T00:00:00", some 10⟩]

/-- Witness for C8 in the environment fetchEx: the failing market yields
no candles and contributes 0, while the batch total over both markets is
still the sum of per-market contributions. -/
theorem market_failure_isolated_witness :
    get_daily_candles fetchEx "KRW-BAD" = [] ∧
    collectDailyVolumes fetchEx ["KRW-BTC", "KRW-BAD"] (fun _ => 0) "2025-01-01" =
      ((["KRW-BTC", "KRW-BAD"].map
        (fun m => marketContribution fetchEx m "2025-01-01")).sum) ∧
    marketContribution fetchEx "KRW-BAD" "2025-01-01" = 0 :=
  ⟨market_failure_isolated.1 fetchEx "KRW-BAD" "boom" rfl,
   market_failure_isolated.2.1 fetchEx ["KRW-BTC", "KRW-BAD"] "2025-01-01",
   market_failure_isolated.2.2 fetchEx "KRW-BAD" "boom" "2025-01-01" rfl⟩

/-- C9: collect_upbit_volume.py stores, under today's date, exactly
`int` of the sum of the markets' acc_trade_price_24h values; and every
date the backfill merge newly adds holds an integer value. -/
theorem stored_volumes_integral :
    (∀ (tickers : List Ticker) (history : List (String × ℚ)) (today : String)
        (saveOk : Bool) (saved : List (String × ℚ)),
        (collect_main (some (get_upbit_total_volume tickers)) history today saveOk).2 =
          some saved →
        dictLookup today saved =
          some ((pyInt ((tickers.map (fun t => t.acc_trade_price_24h.getD 0)).sum) : ℤ) : ℚ)) ∧
    (∀ (existing newData : List (String × ℚ)) (d : String) (v : ℚ),
        dictLookup d existing = none →
        dictLookup d (mergeBackfill existing newData) = some v →
        ∃ n : ℤ, v = (n : ℚ)) := by
  constructor
  · intro tickers history today saveOk saved hsave
    have hs : saved = dictSet history today ((get_upbit_total_volume tickers : ℤ) : ℚ) := by
      cases saveOk <;> simpa [collect_main] using hsave.symm
    subst hs
    rw [get_upbit_total_volume]
    exact dictSet_lookup_self history today _
  · intro existing newData d v h0 hv
    obtain ⟨w, _, he⟩ := mergeBackfill_new_entries newData existing d v h0 hv
    exact ⟨pyInt w, he⟩

/-- Witness for C9: a collect run over a single ticker, and a backfill
merge adding one fresh date. -/
theorem stored_volumes_integral_witness :
    dictLookup "2025-01-01"
      [("2025-01-01", ((get_upbit_total_volume [⟨some 5⟩] : ℤ) : ℚ))] =
      some ((pyInt (([(⟨some 5⟩ : Ticker)].map
        (fun t => t.acc_trade_price_24h.getD 0)).sum) : ℤ) : ℚ) ∧
    ∃ n : ℤ, ((pyInt 3 : ℤ) : ℚ) = (n : ℚ) :=
  ⟨stored_volumes_integral.1 [⟨some 5⟩] [] "2025-01-01" true
      [("2025-01-01", ((get_upbit_total_volume [⟨some 5⟩] : ℤ) : ℚ))] rfl,
   stored_volumes_integral.2 [] [("2025-01-01", 3)] "2025-01-01"
      ((pyInt 3 : ℤ) : ℚ) rfl rfl⟩

/-- C10: on a first run the two alert tiers differ: check_tier1_alerts
returns None whenever no previous score exists, while with an empty
previous state check_tier2_alerts applies its safe-side defaults, so an
indicator alert fires exactly when the current value is already beyond
its critical constant. -/
theorem first_run_asymmetry :
    (∀ cur : ℚ, check_tier1_alerts cur none = none) ∧
    (∀ (fred : FredData) (a b c d : ℚ),
        fred.t10y2y.getLast? = some ⟨some a⟩ →
        fred.hyOas.getLast? = some ⟨some b⟩ →
        fred.ismPmi.getLast? = some ⟨some c⟩ →
        fred.unrate.getLast? = some ⟨some d⟩ →
        ((check_tier2_alerts fred ⟨none, none⟩).count Tier2Alert.t10y2yInversion =
            if a ≤ 0 then 1 else 0) ∧
        ((check_tier2_alerts fred ⟨none, none⟩).count Tier2Alert.hyOasRisk =
            if b ≥ 6.0 then 1 else 0) ∧
        ((check_tier2_alerts fred ⟨none, none⟩).count Tier2Alert.ismPmiContraction =
            if c < 50 then 1 else 0) ∧
        ((check_tier2_alerts fred ⟨none, none⟩).count Tier2Alert.unrateRise =
            if d ≥ 4.5 then 1 else 0)) := by
  constructor
  · intro cur; rfl
  · intro fred a b c d h1 h2 h3 h4
    rw [check_tier2_alerts, h1, h2, h3, h4]
    have e1 : (1 : ℚ) > 0 := by norm_num
    have e2 : (0 : ℚ) < 6.0 := by norm_num
    have e3 : (100 : ℚ) ≥ 50 := by norm_num
    have e4 : (0 : ℚ) < 4.5 := by norm_num
    by_cases p1 : a ≤ 0 <;> by_cases p2 : b ≥ 6.0 <;>
      by_cases p3 : c < 50 <;> by_cases p4 : d ≥ 4.5 <;>
      simp +decide [p1, p2, p3, p4, e1, e2, e3, e4, Option.getD,
                    emptyIndicators, List.count_cons, List.count_append]

/-- Witness for C10: no tier-1 alert at score 1 with no previous score;
with an empty previous state, current values hyOas = 7 and ismPmi = 45
alert immediately while t10y2y = 1 and unrate = 2 do not. -/
theorem first_run_asymmetry_witness :
    check_tier1_alerts 1 none = none ∧
    ((check_tier2_alerts ⟨[⟨some 1⟩], [⟨some 2⟩], [⟨some 7⟩], [⟨some 45⟩]⟩
        ⟨none, none⟩).count Tier2Alert.hyOasRisk =
      if (7 : ℚ) ≥ 6.0 then 1 else 0) ∧
    ((check_tier2_alerts ⟨[⟨some 1⟩], [⟨some 2⟩], [⟨some 7⟩], [⟨some 45⟩]⟩
        ⟨none, none⟩).count Tier2Alert.t10y2yInversion =
      if (1 : ℚ) ≤ 0 then 1 else 0) := by
  have h := first_run_asymmetry.2 ⟨[⟨some 1⟩], [⟨some 2⟩], [⟨some 7⟩], [⟨some 45⟩]⟩
    1 7 45 2 rfl rfl rfl rfl
  exact ⟨first_run_asymmetry.1 1, h.2.1, h.1⟩

end MacroRisk
